import Mathlib

/-!
Verification of the environment-gated MSW activation predicate and the
readiness-gating provider of the `next-msw-integration` repository.

The embedding is shallow: each TypeScript function is translated into an
executable Lean definition over explicit data.  Environment variables are
`Option String` (a variable may be unset); the `typeof window` check that
distinguishes the client from the server execution context becomes an
explicit `ExecContext` tag; promise chains (`then` / `catch`) become
explicit combinators over `Except String`.
-/

/-- The configuration snapshot read by `isMSWEnabled`
(`src/utils/isMSWEnabled.ts`): `env.NEXT_PUBLIC_ENABLE_MSW_MOCK`,
`env.APP_ENV` and `process.env.NODE_ENV`.  Each is a process environment
variable, hence a string that may be absent. -/
structure ConfigSnapshot where
  NEXT_PUBLIC_ENABLE_MSW_MOCK : Option String
  APP_ENV : Option String
  NODE_ENV : Option String
deriving DecidableEq

/-- Execution context: client (browser, `window` defined) or server
(`window` undefined). -/
inductive ExecContext where
  | client
  | server
deriving DecidableEq

/-- Whether `typeof window !== 'undefined'` holds in the given context. -/
def ExecContext.windowDefined : ExecContext → Bool
  | ExecContext.client => true
  | ExecContext.server => false

/-- Shallow embedding of `isMSWEnabled` (`src/utils/isMSWEnabled.ts`,
lines 42-57).  Client side (`typeof window !== 'undefined'`): only
`NEXT_PUBLIC_ENABLE_MSW_MOCK === 'true'` is checked.  Server side:
additionally `APP_ENV === 'test' || NODE_ENV === 'test'` is required. -/
def isMSWEnabled (cfg : ConfigSnapshot) (ctx : ExecContext) : Bool :=
  if ctx.windowDefined then
    cfg.NEXT_PUBLIC_ENABLE_MSW_MOCK == some "true"
  else
    cfg.NEXT_PUBLIC_ENABLE_MSW_MOCK == some "true" &&
      (cfg.APP_ENV == some "test" || cfg.NODE_ENV == some "test")

/-- Two successive evaluations of the activation predicate on the same
snapshot, modelling two consecutive calls within one process (the
configuration snapshot is immutable for the process lifetime). -/
def evalTwice (cfg : ConfigSnapshot) (ctx : ExecContext) : Bool × Bool :=
  (isMSWEnabled cfg ctx, isMSWEnabled cfg ctx)

/-- Claim C1: in server context the activation predicate returns `true`
iff `NEXT_PUBLIC_ENABLE_MSW_MOCK = "true"` and (`APP_ENV = "test"` or
`NODE_ENV = "test"`); every other combination of the two environment
fields, including both absent, yields `false`. -/
theorem isMSWEnabled_server_rule (cfg : ConfigSnapshot) :
    isMSWEnabled cfg ExecContext.server = true ↔
      (cfg.NEXT_PUBLIC_ENABLE_MSW_MOCK = some "true" ∧
        (cfg.APP_ENV = some "test" ∨ cfg.NODE_ENV = some "test")) := by
  simp [isMSWEnabled, ExecContext.windowDefined]

/-- Claim C3: in client context the activation predicate returns `true`
iff `NEXT_PUBLIC_ENABLE_MSW_MOCK = "true"`, and its value does not depend
on `APP_ENV` or `NODE_ENV` at all. -/
theorem isMSWEnabled_client_rule (cfg : ConfigSnapshot) :
    (isMSWEnabled cfg ExecContext.client = true ↔
      cfg.NEXT_PUBLIC_ENABLE_MSW_MOCK = some "true") ∧
    (∀ a n : Option String,
      isMSWEnabled
        { cfg with APP_ENV := a, NODE_ENV := n } ExecContext.client =
        isMSWEnabled cfg ExecContext.client) := by
  constructor
  · simp [isMSWEnabled, ExecContext.windowDefined]
  · intro a n
    simp [isMSWEnabled, ExecContext.windowDefined]

/-- Claim C8: the activation predicate is total (always returns a
boolean; the embedding is a total function into `Bool`, mirroring that
the source never throws on absent or out-of-range values), and whenever
`NEXT_PUBLIC_ENABLE_MSW_MOCK` is not the string `"true"` it returns
`false` in both contexts. -/
theorem isMSWEnabled_total_and_flag_off (cfg : ConfigSnapshot)
    (ctx : ExecContext) :
    (isMSWEnabled cfg ctx = true ∨ isMSWEnabled cfg ctx = false) ∧
    (cfg.NEXT_PUBLIC_ENABLE_MSW_MOCK ≠ some "true" →
      isMSWEnabled cfg ctx = false) := by
  refine ⟨by cases h : isMSWEnabled cfg ctx <;> simp [h], fun h => ?_⟩
  cases ctx <;> simp [isMSWEnabled, ExecContext.windowDefined, h]

/-- Witness for C8 at a concrete snapshot: flag set to `"false"`,
server context, even with `APP_ENV = "test"`. -/
theorem isMSWEnabled_total_and_flag_off_witness :
    isMSWEnabled
      ⟨some "false", some "test", some "test"⟩ ExecContext.server =
      false :=
  (isMSWEnabled_total_and_flag_off
      ⟨some "false", some "test", some "test"⟩ ExecContext.server).2
    (by decide)

/-- Claim C9: the activation predicate is deterministic and idempotent:
two successive evaluations on the same snapshot and context agree. -/
theorem isMSWEnabled_idempotent (cfg : ConfigSnapshot)
    (ctx : ExecContext) :
    (evalTwice cfg ctx).1 = (evalTwice cfg ctx).2 := rfl

/-- Gate state of the readiness gate (spec `Readiness State`). -/
inductive GateState where
  | NotReady
  | Ready
deriving DecidableEq

/-- What the provider renders: `nothing` (`null`), a loading placeholder,
or its children. -/
inductive Rendered where
  | nothing
  | placeholder
  | children
deriving DecidableEq

/-- The options object passed to `worker.start`. -/
structure StartOptions where
  onUnhandledRequest : String
deriving DecidableEq

/-- The `worker` object exported by `mocks/browser`; its `start` method
either resolves (`ok`) or rejects (`error`). -/
structure MockWorker where
  start : StartOptions → Except String Unit

/-- Promise `then`: a rejected upstream promise skips the callback. -/
def promiseThen (p : Except String α) (f : α → Except String β) :
    Except String β :=
  match p with
  | Except.error e => Except.error e
  | Except.ok a => f a

/-- Promise `catch`: a rejection is handed to the handler and the chain
resolves with the handler's value; a resolution passes through. -/
def promiseCatch (p : Except String α) (h : String → α) :
    Except String α :=
  match p with
  | Except.error e => Except.ok (h e)
  | Except.ok a => Except.ok a

/-- Result of running the provider's layout effect to quiescence:
the `worker.start` calls that were made, and the settled value handed to
`setIsMSWReady` (an `Except` so that a propagated rejection would be
visible as `error`). -/
structure EffectResult where
  startCalls : List StartOptions
  settled : Except String Bool

namespace MSWProvider002

/-- `useState(!isMSWEnabled())` — initial `isMSWReady` of the first
`MSWProvider` variant. -/
def initialIsMSWReady (cfg : ConfigSnapshot) (ctx : ExecContext) : Bool :=
  !(isMSWEnabled cfg ctx)

/-- The `then` callback: `await worker.start({ onUnhandledRequest:
'bypass' }); setIsMSWReady(true)`.  A `start` rejection propagates out of
the callback (to the chained `catch`). -/
def thenCallback (w : MockWorker) : Except String Bool × List StartOptions :=
  let opts : StartOptions := ⟨"bypass"⟩
  match w.start opts with
  | Except.ok _ => (Except.ok true, [opts])
  | Except.error e => (Except.error e, [opts])

/-- The body of `useLayoutEffect`: early-return `setIsMSWReady(true)` when
MSW is disabled or `window` is undefined; otherwise
`import('../../mocks/browser').then(...).catch(... setIsMSWReady(true))`.
`importMocksBrowser` is the outcome of the dynamic import. -/
def runLayoutEffect (cfg : ConfigSnapshot) (ctx : ExecContext)
    (importMocksBrowser : Except String MockWorker) : EffectResult :=
  if !(isMSWEnabled cfg ctx) then ⟨[], Except.ok true⟩
  else if !ctx.windowDefined then ⟨[], Except.ok true⟩
  else
    match importMocksBrowser with
    | Except.error e =>
        ⟨[], promiseCatch (Except.error e) (fun _ => true)⟩
    | Except.ok w =>
        let r := thenCallback w
        ⟨r.2, promiseCatch r.1 (fun _ => true)⟩

/-- Values taken by the `isMSWReady` state variable over one lifecycle:
the initial value, then the value of the single `setIsMSWReady` call once
the effect settles (none if the chain were to stay rejected). -/
def isMSWReadyTrace (cfg : ConfigSnapshot) (ctx : ExecContext)
    (importMocksBrowser : Except String MockWorker) : List Bool :=
  initialIsMSWReady cfg ctx ::
    (match (runLayoutEffect cfg ctx importMocksBrowser).settled with
     | Except.ok v => [v]
     | Except.error _ => [])

/-- Render logic (lines 42-47): `if (!isMSWReady) return null; return
children`. -/
def render (isMSWReady : Bool) : Rendered :=
  if !isMSWReady then Rendered.nothing else Rendered.children

/-- The gate state this variant exposes to the rendering logic: `NotReady`
exactly when rendering is blocked (`!isMSWReady`). -/
def exposedState (isMSWReady : Bool) : GateState :=
  if !isMSWReady then GateState.NotReady else GateState.Ready

/-- Exposed gate states over one lifecycle. -/
def exposedTrace (cfg : ConfigSnapshot) (ctx : ExecContext)
    (importMocksBrowser : Except String MockWorker) : List GateState :=
  (isMSWReadyTrace cfg ctx importMocksBrowser).map exposedState

end MSWProvider002

namespace MSWProvider003

/-- `useState(false)` — initial `isMSWReady` of the second `MSWProvider`
variant. -/
def initialIsMSWReady : Bool := false

/-- The `then` callback of the second variant: `try { await
worker.start({ onUnhandledRequest: 'bypass' }); setIsMSWReady(true) }
catch { setIsMSWReady(true) }` — the inner catch swallows a `start`
rejection and still sets ready. -/
def thenCallback (w : MockWorker) : Except String Bool × List StartOptions :=
  let opts : StartOptions := ⟨"bypass"⟩
  match w.start opts with
  | Except.ok _ => (Except.ok true, [opts])
  | Except.error _ => (Except.ok true, [opts])

/-- The body of `useLayoutEffect` (lines 36-65): `if (!enabled || typeof
window === 'undefined') { setIsMSWReady(true); return }` then
`import('../../mocks/browser').then(...).catch(() =>
setIsMSWReady(true))`. -/
def runLayoutEffect (cfg : ConfigSnapshot) (ctx : ExecContext)
    (importMocksBrowser : Except String MockWorker) : EffectResult :=
  if !(isMSWEnabled cfg ctx) || !ctx.windowDefined then
    ⟨[], Except.ok true⟩
  else
    match importMocksBrowser with
    | Except.error e =>
        ⟨[], promiseCatch (Except.error e) (fun _ => true)⟩
    | Except.ok w =>
        let r := thenCallback w
        ⟨r.2, promiseCatch r.1 (fun _ => true)⟩

/-- Values taken by the `isMSWReady` state variable over one lifecycle. -/
def isMSWReadyTrace (cfg : ConfigSnapshot) (ctx : ExecContext)
    (importMocksBrowser : Except String MockWorker) : List Bool :=
  initialIsMSWReady ::
    (match (runLayoutEffect cfg ctx importMocksBrowser).settled with
     | Except.ok v => [v]
     | Except.error _ => [])

/-- Render logic (lines 67-81): `if (isMSWEnabled() && !isMSWReady)`
return the loading placeholder, else render children. -/
def render (cfg : ConfigSnapshot) (ctx : ExecContext)
    (isMSWReady : Bool) : Rendered :=
  if isMSWEnabled cfg ctx && !isMSWReady then Rendered.placeholder
  else Rendered.children

/-- The gate state this variant exposes to the rendering logic: `NotReady`
exactly when rendering is blocked (`isMSWEnabled() && !isMSWReady`). -/
def exposedState (cfg : ConfigSnapshot) (ctx : ExecContext)
    (isMSWReady : Bool) : GateState :=
  if isMSWEnabled cfg ctx && !isMSWReady then GateState.NotReady
  else GateState.Ready

/-- Exposed gate states over one lifecycle. -/
def exposedTrace (cfg : ConfigSnapshot) (ctx : ExecContext)
    (importMocksBrowser : Except String MockWorker) : List GateState :=
  (isMSWReadyTrace cfg ctx importMocksBrowser).map (exposedState cfg ctx)

end MSWProvider003

/-- Spec-side state sequence of the readiness gate at the two lifecycle
checkpoints (just after construction; after the startup step settles or
is skipped): initial state `NotReady` iff the activation predicate holds,
and `Ready` afterwards in every case. -/
def specGateStates (pred : Bool) : List GateState :=
  if pred then [GateState.NotReady, GateState.Ready]
  else [GateState.Ready, GateState.Ready]

/-- Adjacent pairs of a state sequence. -/
def adjacentPairs (l : List GateState) : List (GateState × GateState) :=
  l.zip l.tail

/-- Number of `NotReady → Ready` transitions in a state sequence. -/
def countTransitions (l : List GateState) : Nat :=
  (adjacentPairs l).countP
    (fun p => p.1 == GateState.NotReady && p.2 == GateState.Ready)

/-- Whether a state sequence ever steps `Ready → NotReady`. -/
def hasRegression (l : List GateState) : Bool :=
  (adjacentPairs l).any
    (fun p => p.1 == GateState.Ready && p.2 == GateState.NotReady)

/-- Helper: the first variant's effect always settles with `ok true`,
whatever the import and start outcomes. -/
theorem provider002_settled_ok (cfg : ConfigSnapshot) (ctx : ExecContext)
    (imp : Except String MockWorker) :
    (MSWProvider002.runLayoutEffect cfg ctx imp).settled = Except.ok true := by
  unfold MSWProvider002.runLayoutEffect
  split
  · rfl
  split
  · rfl
  cases imp with
  | error e => rfl
  | ok w =>
    simp only [MSWProvider002.thenCallback]
    cases h : w.start ⟨"bypass"⟩ <;> simp [h, promiseCatch]

/-- Helper: the second variant's effect always settles with `ok true`. -/
theorem provider003_settled_ok (cfg : ConfigSnapshot) (ctx : ExecContext)
    (imp : Except String MockWorker) :
    (MSWProvider003.runLayoutEffect cfg ctx imp).settled = Except.ok true := by
  unfold MSWProvider003.runLayoutEffect
  split
  · rfl
  cases imp with
  | error e => rfl
  | ok w =>
    simp only [MSWProvider003.thenCallback]
    cases h : w.start ⟨"bypass"⟩ <;> simp [h, promiseCatch]

/-- Helper: the first variant's `isMSWReady` trace is the initial value
followed by `true`. -/
theorem provider002_trace_eq (cfg : ConfigSnapshot) (ctx : ExecContext)
    (imp : Except String MockWorker) :
    MSWProvider002.isMSWReadyTrace cfg ctx imp =
      [!(isMSWEnabled cfg ctx), true] := by
  unfold MSWProvider002.isMSWReadyTrace
  rw [provider002_settled_ok]
  rfl

/-- Helper: the second variant's `isMSWReady` trace is `[false, true]`. -/
theorem provider003_trace_eq (cfg : ConfigSnapshot) (ctx : ExecContext)
    (imp : Except String MockWorker) :
    MSWProvider003.isMSWReadyTrace cfg ctx imp = [false, true] := by
  unfold MSWProvider003.isMSWReadyTrace
  rw [provider003_settled_ok]
  rfl

/-- Claim C4: in both provider variants the gate state decided at
construction is `NotReady` iff the activation predicate holds (otherwise
`Ready` synchronously), and when the predicate is false the
interception-layer `start` operation is never invoked. -/
theorem gate_initial_state (cfg : ConfigSnapshot) (ctx : ExecContext)
    (imp : Except String MockWorker) :
    (MSWProvider002.exposedState (MSWProvider002.initialIsMSWReady cfg ctx) =
      if isMSWEnabled cfg ctx then GateState.NotReady else GateState.Ready) ∧
    (MSWProvider003.exposedState cfg ctx MSWProvider003.initialIsMSWReady =
      if isMSWEnabled cfg ctx then GateState.NotReady else GateState.Ready) ∧
    (isMSWEnabled cfg ctx = false →
      (MSWProvider002.runLayoutEffect cfg ctx imp).startCalls = [] ∧
      (MSWProvider003.runLayoutEffect cfg ctx imp).startCalls = []) := by
  refine ⟨?_, ?_, fun h => ⟨?_, ?_⟩⟩
  · cases hp : isMSWEnabled cfg ctx <;>
      simp [MSWProvider002.exposedState, MSWProvider002.initialIsMSWReady, hp]
  · cases hp : isMSWEnabled cfg ctx <;>
      simp [MSWProvider003.exposedState, MSWProvider003.initialIsMSWReady, hp]
  · simp [MSWProvider002.runLayoutEffect, h]
  · simp [MSWProvider003.runLayoutEffect, h]

/-- Witness for C4: with the flag `"false"` in client context, neither
variant ever calls `worker.start`. -/
theorem gate_initial_state_witness :
    (MSWProvider002.runLayoutEffect ⟨some "false", none, none⟩
        ExecContext.client (Except.error "unavailable")).startCalls = [] ∧
    (MSWProvider003.runLayoutEffect ⟨some "false", none, none⟩
        ExecContext.client (Except.error "unavailable")).startCalls = [] :=
  (gate_initial_state ⟨some "false", none, none⟩ ExecContext.client
      (Except.error "unavailable")).2.2 (by decide)

/-- Claim C2: when the gate is constructed `NotReady` (predicate true)
and startup is attempted (browser context), both variants settle the
`isMSWReady` state to `true` — the gate reaches `Ready` — for every
outcome of the dynamic import and of `worker.start`, and the settled
value is an `ok`, i.e. no rejection is re-raised past the effect. -/
theorem gate_ready_despite_failure (cfg : ConfigSnapshot)
    (ctx : ExecContext) (_hEnabled : isMSWEnabled cfg ctx = true)
    (_hWindow : ctx.windowDefined = true)
    (imp : Except String MockWorker) :
    (MSWProvider002.runLayoutEffect cfg ctx imp).settled = Except.ok true ∧
    (MSWProvider003.runLayoutEffect cfg ctx imp).settled = Except.ok true :=
  ⟨provider002_settled_ok cfg ctx imp, provider003_settled_ok cfg ctx imp⟩

/-- Witness for C2: import rejection in variant one, `start` rejection in
variant two — both still settle `ok true`. -/
theorem gate_ready_despite_failure_witness :
    (MSWProvider002.runLayoutEffect ⟨some "true", none, none⟩
        ExecContext.client (Except.error "import failed")).settled =
      Except.ok true ∧
    (MSWProvider003.runLayoutEffect ⟨some "true", none, none⟩
        ExecContext.client
        (Except.ok ⟨fun _ => Except.error "start failed"⟩)).settled =
      Except.ok true :=
  ⟨(gate_ready_despite_failure ⟨some "true", none, none⟩ ExecContext.client
      (by decide) (by decide) (Except.error "import failed")).1,
   (gate_ready_despite_failure ⟨some "true", none, none⟩ ExecContext.client
      (by decide) (by decide)
      (Except.ok ⟨fun _ => Except.error "start failed"⟩)).2⟩

/-- Claim C6: over one lifecycle, each variant's exposed state sequence
is either `[Ready, Ready]` (no transition) or `[NotReady, Ready]` (the
single transition, occurring exactly at the startup-completion
checkpoint); the `NotReady → Ready` transition happens at most once and
no step ever goes `Ready → NotReady`. -/
theorem gate_single_transition (cfg : ConfigSnapshot) (ctx : ExecContext)
    (imp : Except String MockWorker) :
    ((MSWProvider002.exposedTrace cfg ctx imp =
        [GateState.Ready, GateState.Ready] ∨
      MSWProvider002.exposedTrace cfg ctx imp =
        [GateState.NotReady, GateState.Ready]) ∧
     countTransitions (MSWProvider002.exposedTrace cfg ctx imp) ≤ 1 ∧
     hasRegression (MSWProvider002.exposedTrace cfg ctx imp) = false) ∧
    ((MSWProvider003.exposedTrace cfg ctx imp =
        [GateState.Ready, GateState.Ready] ∨
      MSWProvider003.exposedTrace cfg ctx imp =
        [GateState.NotReady, GateState.Ready]) ∧
     countTransitions (MSWProvider003.exposedTrace cfg ctx imp) ≤ 1 ∧
     hasRegression (MSWProvider003.exposedTrace cfg ctx imp) = false) := by
  unfold MSWProvider002.exposedTrace MSWProvider003.exposedTrace
  rw [provider002_trace_eq, provider003_trace_eq]
  cases hp : isMSWEnabled cfg ctx <;>
    simp [MSWProvider002.exposedState, MSWProvider003.exposedState, hp,
      countTransitions, hasRegression, adjacentPairs, List.countP] <;>
    decide

/-- Claim C5: at every reachable lifecycle checkpoint (the code's
`isMSWReady` value zipped with the spec-side gate state at that
checkpoint), each variant renders its children iff the gate state is
`Ready`, and while `NotReady` it renders nothing (variant one) or the
loading placeholder (variant two). -/
theorem gate_render_iff_ready (cfg : ConfigSnapshot) (ctx : ExecContext)
    (imp : Except String MockWorker) (p : Bool × GateState) :
    (p ∈ (MSWProvider002.isMSWReadyTrace cfg ctx imp).zip
        (specGateStates (isMSWEnabled cfg ctx)) →
      ((MSWProvider002.render p.1 = Rendered.children ↔
          p.2 = GateState.Ready) ∧
       (p.2 = GateState.NotReady →
          MSWProvider002.render p.1 = Rendered.nothing))) ∧
    (p ∈ (MSWProvider003.isMSWReadyTrace cfg ctx imp).zip
        (specGateStates (isMSWEnabled cfg ctx)) →
      ((MSWProvider003.render cfg ctx p.1 = Rendered.children ↔
          p.2 = GateState.Ready) ∧
       (p.2 = GateState.NotReady →
          MSWProvider003.render cfg ctx p.1 = Rendered.placeholder))) := by
  rw [provider002_trace_eq, provider003_trace_eq]
  cases hp : isMSWEnabled cfg ctx <;>
    constructor <;>
    intro hm <;>
    simp [specGateStates, hp, List.zip] at hm <;>
    rcases hm with rfl | rfl <;>
    simp [MSWProvider002.render, MSWProvider003.render, hp]

/-- Witness for C5: predicate true in client context, first checkpoint
(`isMSWReady = false`, spec state `NotReady`): variant one renders
nothing, variant two renders the placeholder. -/
theorem gate_render_iff_ready_witness :
    MSWProvider002.render false = Rendered.nothing ∧
    MSWProvider003.render ⟨some "true", none, none⟩ ExecContext.client
      false = Rendered.placeholder :=
  ⟨((gate_render_iff_ready ⟨some "true", none, none⟩ ExecContext.client
      (Except.error "rejected") (false, GateState.NotReady)).1
      (by decide)).2 rfl,
   ((gate_render_iff_ready ⟨some "true", none, none⟩ ExecContext.client
      (Except.error "rejected") (false, GateState.NotReady)).2
      (by decide)).2 rfl⟩

/-- Claim C7: in both variants, every call to `worker.start` passes the
`onUnhandledRequest: 'bypass'` option — the list of start calls of any
lifecycle contains only options with the bypass policy. -/
theorem start_always_bypass (cfg : ConfigSnapshot) (ctx : ExecContext)
    (imp : Except String MockWorker) :
    ((MSWProvider002.runLayoutEffect cfg ctx imp).startCalls.all
      (fun o => o.onUnhandledRequest == "bypass") = true) ∧
    ((MSWProvider003.runLayoutEffect cfg ctx imp).startCalls.all
      (fun o => o.onUnhandledRequest == "bypass") = true) := by
  constructor
  · unfold MSWProvider002.runLayoutEffect
    split
    · rfl
    split
    · rfl
    cases imp with
    | error e => rfl
    | ok w =>
      simp only [MSWProvider002.thenCallback]
      cases h : w.start ⟨"bypass"⟩ <;> simp [h]
  · unfold MSWProvider003.runLayoutEffect
    split
    · rfl
    cases imp with
    | error e => rfl
    | ok w =>
      simp only [MSWProvider003.thenCallback]
      cases h : w.start ⟨"bypass"⟩ <;> simp [h]

/-- JSON-like values: the payloads built with `HttpResponse.json` and the
parsed request bodies (`request.json()`). -/
inductive JsonValue where
  | str (s : String)
  | boolean (b : Bool)
  | obj (fields : List (String × JsonValue))

/-- A request as seen by a handler: method, URL path, and the parsed JSON
body (parsing is the mocking library's concern and is opaque here). -/
structure MockRequest where
  method : String
  url : String
  jsonBody : JsonValue

/-- One MSW request handler: the method and path pattern given to
`http.get` / `http.post`, and the resolver producing the JSON response. -/
structure Handler where
  method : String
  path : String
  resolve : MockRequest → JsonValue

/-- Shallow embedding of `mocks/handlers.ts`: the `/api/user` GET handler
returns a fixed user object; the `/api/login` POST handler returns
`success`, a mock token, and the parsed request body as `user`. -/
def handlers : List Handler :=
  [ ⟨"GET", "/api/user", fun _ =>
      JsonValue.obj
        [("id", JsonValue.str "1"),
         ("name", JsonValue.str "John Doe"),
         ("email", JsonValue.str "john.doe@example.com")]⟩,
    ⟨"POST", "/api/login", fun req =>
      JsonValue.obj
        [("success", JsonValue.boolean true),
         ("token", JsonValue.str "mock-jwt-token"),
         ("user", req.jsonBody)]⟩ ]

/-- Whether a handler's pattern matches a request. -/
def matchesHandler (h : Handler) (req : MockRequest) : Bool :=
  h.method == req.method && h.path == req.url

/-- Resolve a request against the handler list, first match wins
(handlers are tried in definition order). -/
def handleRequest (req : MockRequest) : Option JsonValue :=
  (handlers.find? (fun h => matchesHandler h req)).map
    (fun h => h.resolve req)

/-- Claim C10: every GET request to `/api/user` gets exactly the fixed
user JSON, independent of its body, and every POST request to
`/api/login` gets `success = true`, `token = "mock-jwt-token"` and
`user` equal to its own parsed body. -/
theorem mock_handlers_constant (req : MockRequest) :
    (req.method = "GET" → req.url = "/api/user" →
      handleRequest req =
        some (JsonValue.obj
          [("id", JsonValue.str "1"),
           ("name", JsonValue.str "John Doe"),
           ("email", JsonValue.str "john.doe@example.com")])) ∧
    (req.method = "POST" → req.url = "/api/login" →
      handleRequest req =
        some (JsonValue.obj
          [("success", JsonValue.boolean true),
           ("token", JsonValue.str "mock-jwt-token"),
           ("user", req.jsonBody)])) := by
  obtain ⟨m, u, b⟩ := req
  constructor
  · rintro rfl rfl
    rfl
  · rintro rfl rfl
    rfl

/-- Witness for C10: both handlers evaluated on concrete requests. -/
theorem mock_handlers_constant_witness :
    handleRequest ⟨"GET", "/api/user", JsonValue.obj []⟩ =
      some (JsonValue.obj
        [("id", JsonValue.str "1"),
         ("name", JsonValue.str "John Doe"),
         ("email", JsonValue.str "john.doe@example.com")]) ∧
    handleRequest ⟨"POST", "/api/login", JsonValue.str "alice"⟩ =
      some (JsonValue.obj
        [("success", JsonValue.boolean true),
         ("token", JsonValue.str "mock-jwt-token"),
         ("user", JsonValue.str "alice")]) :=
  ⟨(mock_handlers_constant ⟨"GET", "/api/user", JsonValue.obj []⟩).1
      rfl rfl,
   (mock_handlers_constant ⟨"POST", "/api/login", JsonValue.str "alice"⟩).2
      rfl rfl⟩
